import Mathlib

/-!
Verification of the EAN-numbers-vision pipeline against its natural-language
specification.

The development shallowly embeds the parts of the Python code base that the
claims refer to:

* `src/barcode/validator.py` — checksum calculation and validation,
  symbology detection, normalization (claims C1, C4, C10);
* `src/db/repositories/jobs.py` — job queue `dequeue` and
  `cleanup_old_completed` (claims C3, C8);
* `workers/decode_fallback/main.py` and `workers/decode_failed/main.py` —
  the fallback / retry decode branch logic and token accounting
  (claims C2, C5, C9);
* `src/db/repositories/detections.py` and
  `tools/manual_review_ui/app.py` — review resolution (claim C6);
* `src/llm/gemini.py` — the AI call retry wrapper (claim C7).

Modelling conventions: a Python string is a list of `PyChar`, a character
carrying the two attributes the validator reads off the Unicode database —
whether `str.isdigit()` is true of it, and the decimal value `int()` accepts
for it (absent for digits like `'²'` on which `int()` raises, and for
non-digits).  The empty string is not a digit string, as in Python.  Python
functions that can raise `ValueError` are embedded as `Except String`-valued
functions, with the `Except.error` constructor standing for a raised
exception. MongoDB `datetime` values are modelled as integer timestamps
(seconds); `timedelta` arithmetic becomes integer arithmetic. A MongoDB
collection is a list of documents.
-/

deriving instance DecidableEq for Except

namespace EANVision

/-! ## Barcode validator (`src/barcode/validator.py`) -/

/-- A Unicode character as the Python validator observes it: its codepoint,
whether `str.isdigit()` is true of it, and the value `int(c)` yields when the
character is a decimal digit (Unicode `Numeric_Type=Decimal`, category `Nd`).
Python's `isdigit` is true not only of decimal digits but also of characters
with `Numeric_Type=Digit` and no decimal value — e.g. the superscript `'²'`
(U+00B2) — on which `int()` raises ValueError.  So a character falls in one
of three classes: decimal digit (`isdigit = true`, `decimal = some v`),
digit without a decimal value (`isdigit = true`, `decimal = none`), or
non-digit (`isdigit = false`, `decimal = none`). -/
structure PyChar where
  cp : Char
  isdigit : Bool
  decimal : Option Nat
deriving DecidableEq, Repr

/-- A barcode code string: a list of characters. -/
abbrev Code := List PyChar

/-- An ASCII character as a `PyChar`: below U+0080 the `isdigit` characters
are exactly `'0'`–`'9'`, and each of them is decimal. -/
def asciiChar (c : Char) : PyChar :=
  ⟨c, c.isDigit, if c.isDigit then some (c.toNat - 48) else none⟩

/-- An ASCII string as a Python string. -/
def asciiCode (s : List Char) : Code := s.map asciiChar

/-- The ASCII digit `'0'` (decimal value 0); also the never-consulted
default of `getLastD` below. -/
def pyZero : PyChar := ⟨'0', true, some 0⟩

/-- The Arabic-Indic digit zero `'٠'` (U+0660): `isdigit` is true and
`int('٠') = 0` — a non-ASCII decimal digit Python accepts. -/
def arabicZero : PyChar := ⟨'٠', true, some 0⟩

/-- The superscript two `'²'` (U+00B2): `str.isdigit()` is true of it, yet
`int('²')` raises ValueError — a digit without a decimal value. -/
def sup2 : PyChar := ⟨'²', true, none⟩

/-- Python `str.isdigit()`: nonempty and every character `isdigit`.
(Python returns `False` on the empty string.) -/
def pyIsdigit (s : Code) : Bool :=
  !s.isEmpty && s.all PyChar.isdigit

/-- Python `int(c)` on a one-character string: the decimal value when the
character has one, ValueError otherwise.  (Python's message also names the
offending character; the constant prefix is kept.) -/
def pyInt (c : PyChar) : Except String Nat :=
  match c.decimal with
  | some v => Except.ok v
  | none => Except.error "invalid literal for int() with base 10"

/-- The decimal value of a character, for the pure spec-side sums. -/
def decVal (c : PyChar) : Nat := c.decimal.getD 0

/-- The guarded checksum loop of `calculate_ean13_checksum` and
`calculate_ean8_checksum` (validator.py lines 21–26 and 61–67): for each
character in order, first the explicit `isdigit` guard (whose failure is the
explicit raise at line 24 / 64), then `int(digit)` — which itself raises on
a digit without a decimal value — accumulating `int(digit) * w i`. -/
def guardedWeightedSum (w : Nat → Nat) : Nat → Code → Except String Nat
  | _, [] => Except.ok 0
  | i, c :: rest =>
    if c.isdigit then
      match pyInt c with
      | Except.ok v =>
          match guardedWeightedSum w (i + 1) rest with
          | Except.ok t => Except.ok (v * w i + t)
          | Except.error e => Except.error e
      | Except.error e => Except.error e
    else
      Except.error "Invalid character in code"

/-- The unguarded loop of `validate_upc_checksum` (validator.py lines
112–115): `int(digit) * w i` with no per-character guard. -/
def intWeightedSum (w : Nat → Nat) : Nat → Code → Except String Nat
  | _, [] => Except.ok 0
  | i, c :: rest =>
    match pyInt c with
    | Except.ok v =>
        match intWeightedSum w (i + 1) rest with
        | Except.ok t => Except.ok (v * w i + t)
        | Except.error e => Except.error e
    | Except.error e => Except.error e

/-- EAN-13 weights: `1 if i % 2 == 0 else 3` (validator.py line 25). -/
def w13 (i : Nat) : Nat := if i % 2 = 0 then 1 else 3

/-- EAN-8 / UPC-A weights: `3 if i % 2 == 0 else 1`
(validator.py lines 66 and 114). -/
def w31 (i : Nat) : Nat := if i % 2 = 0 then 3 else 1

/-- `calculate_ean13_checksum` (validator.py lines 8–28). -/
def calculate_ean13_checksum (code : Code) : Except String Nat :=
  if code.length < 12 then
    Except.error "Code must have at least 12 digits for EAN-13"
  else
    match guardedWeightedSum w13 0 (code.take 12) with
    | Except.ok total => Except.ok ((10 - total % 10) % 10)
    | Except.error e => Except.error e

/-- `validate_ean13_checksum` (validator.py lines 31–49): length and digit
guards, the checksum over the first 12 characters, then
`actual = int(code[-1])` — itself a raise point on a digit without a
decimal value. -/
def validate_ean13_checksum (code : Code) : Except String Bool :=
  if code.length ≠ 13 then Except.ok false
  else if !pyIsdigit code then Except.ok false
  else
    match calculate_ean13_checksum code with
    | Except.ok expected =>
        match pyInt (code.getLastD pyZero) with
        | Except.ok actual => Except.ok (expected = actual)
        | Except.error e => Except.error e
    | Except.error e => Except.error e

/-- `calculate_ean8_checksum` (validator.py lines 52–69). -/
def calculate_ean8_checksum (code : Code) : Except String Nat :=
  if code.length < 7 then
    Except.error "Code must have at least 7 digits for EAN-8"
  else
    match guardedWeightedSum w31 0 (code.take 7) with
    | Except.ok total => Except.ok ((10 - total % 10) % 10)
    | Except.error e => Except.error e

/-- `validate_ean8_checksum` (validator.py lines 72–90). -/
def validate_ean8_checksum (code : Code) : Except String Bool :=
  if code.length ≠ 8 then Except.ok false
  else if !pyIsdigit code then Except.ok false
  else
    match calculate_ean8_checksum code with
    | Except.ok expected =>
        match pyInt (code.getLastD pyZero) with
        | Except.ok actual => Except.ok (expected = actual)
        | Except.error e => Except.error e
    | Except.error e => Except.error e

/-- `validate_upc_checksum` (validator.py lines 93–120): length-12 guard,
digit guard, the inline unguarded weighted sum over the first 11
characters, then `int(code[-1])`. -/
def validate_upc_checksum (code : Code) : Except String Bool :=
  if code.length ≠ 12 then Except.ok false
  else if !pyIsdigit code then Except.ok false
  else
    match intWeightedSum w31 0 (code.take 11) with
    | Except.ok total =>
        match pyInt (code.getLastD pyZero) with
        | Except.ok actual => Except.ok ((10 - total % 10) % 10 = actual)
        | Except.error e => Except.error e
    | Except.error e => Except.error e

/-- `BarcodeSymbology` (models/detection.py lines 22–29). -/
inductive BarcodeSymbology where
  | ean13
  | ean8
  | upcA
  | upcE
  | unknown
deriving DecidableEq, Repr

/-- `detect_symbology` (validator.py lines 123–147). -/
def detect_symbology (code : Code) : BarcodeSymbology :=
  if !pyIsdigit code then .unknown
  else if code.length = 13 then .ean13
  else if code.length = 8 then .ean8
  else if code.length = 12 then .upcA
  else if code.length = 6 ∨ code.length = 7 then .upcE
  else .unknown

/-- `is_valid_barcode` (validator.py lines 150–192). Returns
`(is_valid, symbology, error_message)`. -/
def is_valid_barcode (code : Code) :
    Except String (Bool × BarcodeSymbology × String) :=
  if !pyIsdigit code then
    Except.ok (false, .unknown, "Code contains non-numeric characters")
  else
    let symbology := detect_symbology code
    if symbology = .unknown then
      Except.ok (false, symbology,
        "Unsupported code length: " ++ toString code.length)
    else if symbology = .ean13 then
      match validate_ean13_checksum code with
      | Except.ok true => Except.ok (true, symbology, "")
      | Except.ok false => Except.ok (false, symbology, "Invalid EAN-13 checksum")
      | Except.error e => Except.error e
    else if symbology = .ean8 then
      match validate_ean8_checksum code with
      | Except.ok true => Except.ok (true, symbology, "")
      | Except.ok false => Except.ok (false, symbology, "Invalid EAN-8 checksum")
      | Except.error e => Except.error e
    else if symbology = .upcA then
      match validate_upc_checksum code with
      | Except.ok true => Except.ok (true, symbology, "")
      | Except.ok false => Except.ok (false, symbology, "Invalid UPC-A checksum")
      | Except.error e => Except.error e
    else if symbology = .upcE then
      Except.ok (true, symbology, "")
    else
      Except.ok (false, symbology, "Unknown validation error")

/-- `normalize_barcode` (validator.py lines 195–211); the prefixed `"0"` is
the ASCII zero. -/
def normalize_barcode (code : Code) (symbology : BarcodeSymbology) : Code :=
  if symbology = .upcA ∧ code.length = 12 then pyZero :: code
  else code

/-! ### Pure sums, the decimal-safety condition, and the spec-side
checksum predicates (the latter transcribed from spec.md §4.8 for the
refinement claims) -/

/-- The pure value of a checksum loop on a string of decimal digits. -/
def pureCharSum (w : Nat → Nat) : Nat → Code → Nat
  | _, [] => 0
  | i, c :: rest => decVal c * w i + pureCharSum w (i + 1) rest

/-- A string is decimal-safe when every `isdigit` character in it also has
a decimal value — true of every ASCII string and of every string of decimal
digits; violated exactly by the characters (like `'²'`) on which `int()`
raises past the `isdigit` guards. -/
def decimalSafe (s : Code) : Bool :=
  s.all (fun c => !c.isdigit || c.decimal.isSome)

/-- The decimal value of the last character (spec side). -/
def lastDecVal (code : Code) : Nat := decVal (code.getLastD pyZero)

/-- Spec §4.8: EAN-13 checksum holds — over the first 12 digits with
weights `1` (even index) / `3` (odd index), `(10 − Σ mod 10) mod 10` equals
the last digit. -/
def specEan13Holds (code : Code) : Bool :=
  (10 - pureCharSum w13 0 (code.take 12) % 10) % 10 = lastDecVal code

/-- Spec §4.8: EAN-8 checksum holds — over the first 7 digits with weights
`3` (even index) / `1` (odd index). -/
def specEan8Holds (code : Code) : Bool :=
  (10 - pureCharSum w31 0 (code.take 7) % 10) % 10 = lastDecVal code

/-- Spec §4.8: UPC-A checksum holds — over the first 11 digits with weights
`3` (even index) / `1` (odd index). -/
def specUpcHolds (code : Code) : Bool :=
  (10 - pureCharSum w31 0 (code.take 11) % 10) % 10 = lastDecVal code

/-- Spec §4.8: a code is valid iff it is numeric-only and either a
length-13 EAN-13 with valid checksum, a length-8 EAN-8 with valid checksum,
a length-12 UPC-A with valid checksum, or a length 6 or 7 UPC-E (accepted
without checksum verification). -/
def specValid (code : Code) : Bool :=
  pyIsdigit code &&
    ((decide (code.length = 13) && specEan13Holds code) ||
     (decide (code.length = 8) && specEan8Holds code) ||
     (decide (code.length = 12) && specUpcHolds code) ||
     decide (code.length = 6 ∨ code.length = 7))

/-! ### Helper lemmas -/

theorem all_take (p : PyChar → Bool) (s : Code) (n : Nat)
    (h : s.all p = true) : (s.take n).all p = true := by
  rw [List.all_eq_true] at h ⊢
  intro c hc
  exact h c (List.mem_of_mem_take hc)

theorem pyIsdigit_all (code : Code) (h : pyIsdigit code = true) :
    code.all PyChar.isdigit = true := by
  simp only [pyIsdigit, Bool.and_eq_true] at h
  exact h.2

theorem decimal_of_safe_digits (code : Code) (hs : decimalSafe code = true)
    (hd : pyIsdigit code = true) :
    code.all (fun c => c.decimal.isSome) = true := by
  unfold decimalSafe at hs
  rw [List.all_eq_true] at hs
  have h2 := List.all_eq_true.mp (pyIsdigit_all code hd)
  rw [List.all_eq_true]
  intro c hc
  have h1 := hs c hc
  have h3 := h2 c hc
  simp only [h3, Bool.not_true, Bool.false_or] at h1
  exact h1

theorem getLastD_mem :
    ∀ (l : Code) (d : PyChar), l ≠ [] → l.getLastD d ∈ l := by
  intro l
  induction l with
  | nil => intro d h; exact absurd rfl h
  | cons a rest ih =>
      intro d _
      rw [List.getLastD_cons]
      cases rest with
      | nil => exact List.mem_cons_self a []
      | cons b t => exact List.mem_cons_of_mem a (ih a (by simp))

theorem guardedWeightedSum_ok (w : Nat → Nat) :
    ∀ (l : Code) (i : Nat), l.all PyChar.isdigit = true →
      l.all (fun c => c.decimal.isSome) = true →
      guardedWeightedSum w i l = Except.ok (pureCharSum w i l) := by
  intro l
  induction l with
  | nil => intro i _ _; rfl
  | cons c rest ih =>
      intro i hdig hdec
      simp only [List.all_cons, Bool.and_eq_true] at hdig hdec
      obtain ⟨v, hv⟩ := Option.isSome_iff_exists.mp hdec.1
      simp [guardedWeightedSum, hdig.1, pyInt, hv,
        ih (i + 1) hdig.2 hdec.2, pureCharSum, decVal]

theorem intWeightedSum_ok (w : Nat → Nat) :
    ∀ (l : Code) (i : Nat), l.all (fun c => c.decimal.isSome) = true →
      intWeightedSum w i l = Except.ok (pureCharSum w i l) := by
  intro l
  induction l with
  | nil => intro i _; rfl
  | cons c rest ih =>
      intro i hdec
      simp only [List.all_cons, Bool.and_eq_true] at hdec
      obtain ⟨v, hv⟩ := Option.isSome_iff_exists.mp hdec.1
      simp [intWeightedSum, pyInt, hv, ih (i + 1) hdec.2, pureCharSum,
        decVal]

theorem intWeightedSum_inv (w : Nat → Nat) :
    ∀ (l : Code) (i t : Nat), intWeightedSum w i l = Except.ok t →
      l.all (fun c => c.decimal.isSome) = true ∧ t = pureCharSum w i l := by
  intro l
  induction l with
  | nil =>
      intro i t h
      simp only [intWeightedSum, Except.ok.injEq] at h
      exact ⟨rfl, h.symm⟩
  | cons c rest ih =>
      intro i t h
      cases hv : c.decimal with
      | none => simp [intWeightedSum, pyInt, hv] at h
      | some v =>
          simp only [intWeightedSum, pyInt, hv] at h
          cases hr : intWeightedSum w (i + 1) rest with
          | error e => simp [hr] at h
          | ok t' =>
              simp only [hr, Except.ok.injEq] at h
              obtain ⟨hdec, ht'⟩ := ih (i + 1) t' hr
              constructor
              · simp [List.all_cons, hv, hdec]
              · simp [pureCharSum, decVal, hv, ← h, ht']

theorem validate_ean13_run (code : Code) (h13 : code.length = 13)
    (hd : pyIsdigit code = true) (total v : Nat)
    (hsum : guardedWeightedSum w13 0 (code.take 12) = Except.ok total)
    (hlast : pyInt (code.getLastD pyZero) = Except.ok v) :
    validate_ean13_checksum code =
      Except.ok (decide ((10 - total % 10) % 10 = v)) := by
  unfold validate_ean13_checksum calculate_ean13_checksum
  rw [if_neg (show ¬ (code.length ≠ 13) by simp [h13]),
    if_neg (show ¬ ((!pyIsdigit code) = true) by simp [hd]),
    if_neg (show ¬ (code.length < 12) by simp [h13]), hsum, hlast]

theorem validate_ean8_run (code : Code) (h8 : code.length = 8)
    (hd : pyIsdigit code = true) (total v : Nat)
    (hsum : guardedWeightedSum w31 0 (code.take 7) = Except.ok total)
    (hlast : pyInt (code.getLastD pyZero) = Except.ok v) :
    validate_ean8_checksum code =
      Except.ok (decide ((10 - total % 10) % 10 = v)) := by
  unfold validate_ean8_checksum calculate_ean8_checksum
  rw [if_neg (show ¬ (code.length ≠ 8) by simp [h8]),
    if_neg (show ¬ ((!pyIsdigit code) = true) by simp [hd]),
    if_neg (show ¬ (code.length < 7) by simp [h8]), hsum, hlast]

theorem validate_upc_run (code : Code) (h12 : code.length = 12)
    (hd : pyIsdigit code = true) (total v : Nat)
    (hsum : intWeightedSum w31 0 (code.take 11) = Except.ok total)
    (hlast : pyInt (code.getLastD pyZero) = Except.ok v) :
    validate_upc_checksum code =
      Except.ok (decide ((10 - total % 10) % 10 = v)) := by
  unfold validate_upc_checksum
  rw [if_neg (show ¬ (code.length ≠ 12) by simp [h12]),
    if_neg (show ¬ ((!pyIsdigit code) = true) by simp [hd]), hsum, hlast]

theorem pyIsdigit_ne_nil (code : Code) (h : pyIsdigit code = true) :
    code ≠ [] := by
  intro hnil
  rw [hnil] at h
  simp [pyIsdigit] at h

theorem last_pyInt_of_safe (code : Code) (hsafe : decimalSafe code = true)
    (hd : pyIsdigit code = true) :
    pyInt (code.getLastD pyZero) = Except.ok (lastDecVal code) := by
  have hdec := decimal_of_safe_digits code hsafe hd
  have hmem := getLastD_mem code pyZero (pyIsdigit_ne_nil code hd)
  have hsome := List.all_eq_true.mp hdec _ hmem
  obtain ⟨v, hv⟩ := Option.isSome_iff_exists.mp hsome
  unfold pyInt lastDecVal decVal
  rw [hv]
  rfl

theorem validate_ean13_characterize (code : Code)
    (hsafe : decimalSafe code = true) :
    validate_ean13_checksum code =
      Except.ok (decide (code.length = 13) && pyIsdigit code &&
        specEan13Holds code) := by
  by_cases h13 : code.length = 13
  · by_cases hd : pyIsdigit code = true
    · have hdec := decimal_of_safe_digits code hsafe hd
      have hsum := guardedWeightedSum_ok w13 (code.take 12) 0
        (all_take PyChar.isdigit code 12 (pyIsdigit_all code hd))
        (all_take _ code 12 hdec)
      rw [validate_ean13_run code h13 hd _ _ hsum
        (last_pyInt_of_safe code hsafe hd)]
      simp [h13, hd, specEan13Holds]
    · have hd' : pyIsdigit code = false := by
        cases hpd : pyIsdigit code
        · rfl
        · exact absurd hpd hd
      simp [validate_ean13_checksum, hd', h13]
  · simp [validate_ean13_checksum, h13]

theorem validate_ean8_characterize (code : Code)
    (hsafe : decimalSafe code = true) :
    validate_ean8_checksum code =
      Except.ok (decide (code.length = 8) && pyIsdigit code &&
        specEan8Holds code) := by
  by_cases h8 : code.length = 8
  · by_cases hd : pyIsdigit code = true
    · have hdec := decimal_of_safe_digits code hsafe hd
      have hsum := guardedWeightedSum_ok w31 (code.take 7) 0
        (all_take PyChar.isdigit code 7 (pyIsdigit_all code hd))
        (all_take _ code 7 hdec)
      rw [validate_ean8_run code h8 hd _ _ hsum
        (last_pyInt_of_safe code hsafe hd)]
      simp [h8, hd, specEan8Holds]
    · have hd' : pyIsdigit code = false := by
        cases hpd : pyIsdigit code
        · rfl
        · exact absurd hpd hd
      simp [validate_ean8_checksum, hd', h8]
  · simp [validate_ean8_checksum, h8]

theorem validate_upc_characterize (code : Code)
    (hsafe : decimalSafe code = true) :
    validate_upc_checksum code =
      Except.ok (decide (code.length = 12) && pyIsdigit code &&
        specUpcHolds code) := by
  by_cases h12 : code.length = 12
  · by_cases hd : pyIsdigit code = true
    · have hdec := decimal_of_safe_digits code hsafe hd
      have hsum := intWeightedSum_ok w31 (code.take 11) 0
        (all_take _ code 11 hdec)
      rw [validate_upc_run code h12 hd _ _ hsum
        (last_pyInt_of_safe code hsafe hd)]
      simp [h12, hd, specUpcHolds]
    · have hd' : pyIsdigit code = false := by
        cases hpd : pyIsdigit code
        · rfl
        · exact absurd hpd hd
      simp [validate_upc_checksum, hd', h12]
  · simp [validate_upc_checksum, h12]

/-- Full run of `is_valid_barcode` on a decimal-safe string: it returns
normally, the returned validity flag agrees with the spec-side `specValid`,
and the returned symbology is `detect_symbology`. -/
theorem is_valid_barcode_characterize (code : Code)
    (hsafe : decimalSafe code = true) :
    ∃ msg, is_valid_barcode code =
      Except.ok (specValid code, detect_symbology code, msg) := by
  by_cases hd : pyIsdigit code
  · by_cases h13 : code.length = 13
    · refine ⟨if specEan13Holds code then "" else "Invalid EAN-13 checksum", ?_⟩
      simp only [is_valid_barcode, detect_symbology, hd, h13,
        validate_ean13_characterize code hsafe, specValid]
      cases h : specEan13Holds code <;> simp [h, hd, h13]
    · by_cases h8 : code.length = 8
      · refine ⟨if specEan8Holds code then "" else "Invalid EAN-8 checksum", ?_⟩
        simp only [is_valid_barcode, detect_symbology, hd, h13, h8,
          validate_ean8_characterize code hsafe, specValid]
        cases h : specEan8Holds code <;> simp [h, hd, h13, h8]
      · by_cases h12 : code.length = 12
        · refine ⟨if specUpcHolds code then "" else "Invalid UPC-A checksum", ?_⟩
          simp only [is_valid_barcode, detect_symbology, hd, h13, h8, h12,
            validate_upc_characterize code hsafe, specValid]
          cases h : specUpcHolds code <;> simp [h, hd, h13, h8, h12]
        · by_cases h67 : code.length = 6 ∨ code.length = 7
          · refine ⟨"", ?_⟩
            simp [is_valid_barcode, detect_symbology, hd, h13, h8, h12, h67,
              specValid]
          · refine ⟨"Unsupported code length: " ++ toString code.length, ?_⟩
            simp [is_valid_barcode, detect_symbology, hd, h13, h8, h12, h67,
              specValid]
  · refine ⟨"Code contains non-numeric characters", ?_⟩
    simp [is_valid_barcode, detect_symbology, hd, specValid]

/-! ### Which errors the entry points can produce -/

theorem pyInt_error (c : PyChar) (e : String)
    (h : pyInt c = Except.error e) :
    e = "invalid literal for int() with base 10" := by
  cases hv : c.decimal with
  | some v => simp [pyInt, hv] at h
  | none =>
      simp only [pyInt, hv, Except.error.injEq] at h
      exact h.symm

theorem guardedWeightedSum_error (w : Nat → Nat) :
    ∀ (l : Code) (i : Nat) (e : String), (∀ c ∈ l, c.isdigit = true) →
      guardedWeightedSum w i l = Except.error e →
      e = "invalid literal for int() with base 10" := by
  intro l
  induction l with
  | nil => intro i e _ h; simp [guardedWeightedSum] at h
  | cons c rest ih =>
      intro i e hall h
      have hc : c.isdigit = true := hall c (List.mem_cons_self c rest)
      simp only [guardedWeightedSum] at h
      rw [if_pos hc] at h
      cases hp : pyInt c with
      | error e' =>
          simp only [hp] at h
          cases h
          exact pyInt_error c _ hp
      | ok v =>
          simp only [hp] at h
          cases hr : guardedWeightedSum w (i + 1) rest with
          | ok t => simp [hr] at h
          | error e' =>
              simp only [hr] at h
              cases h
              exact ih (i + 1) _
                (fun z hz => hall z (List.mem_cons_of_mem c hz)) hr

theorem intWeightedSum_error (w : Nat → Nat) :
    ∀ (l : Code) (i : Nat) (e : String),
      intWeightedSum w i l = Except.error e →
      e = "invalid literal for int() with base 10" := by
  intro l
  induction l with
  | nil => intro i e h; simp [intWeightedSum] at h
  | cons c rest ih =>
      intro i e h
      simp only [intWeightedSum] at h
      cases hp : pyInt c with
      | error e' =>
          simp only [hp] at h
          cases h
          exact pyInt_error c _ hp
      | ok v =>
          simp only [hp] at h
          cases hr : intWeightedSum w (i + 1) rest with
          | ok t => simp [hr] at h
          | error e' =>
              simp only [hr] at h
              cases h
              exact ih (i + 1) _ hr

theorem validate_ean13_error (code : Code) (e : String)
    (h : validate_ean13_checksum code = Except.error e) :
    e = "invalid literal for int() with base 10" := by
  by_cases h13 : code.length = 13
  · by_cases hd : pyIsdigit code = true
    · have hall : ∀ c ∈ code.take 12, c.isdigit = true := by
        intro c hc
        exact List.all_eq_true.mp (pyIsdigit_all code hd) c
          (List.mem_of_mem_take hc)
      unfold validate_ean13_checksum calculate_ean13_checksum at h
      rw [if_neg (show ¬ (code.length ≠ 13) by simp [h13]),
        if_neg (show ¬ ((!pyIsdigit code) = true) by simp [hd]),
        if_neg (show ¬ (code.length < 12) by simp [h13])] at h
      cases hg : guardedWeightedSum w13 0 (code.take 12) with
      | error e' =>
          simp only [hg] at h
          cases h
          exact guardedWeightedSum_error w13 _ 0 _ hall hg
      | ok total =>
          simp only [hg] at h
          cases hp : pyInt (code.getLastD pyZero) with
          | ok v =>
              simp only [hp] at h
              cases h
          | error e' =>
              simp only [hp] at h
              cases h
              exact pyInt_error _ _ hp
    · have hd' : pyIsdigit code = false := by
        cases hpd : pyIsdigit code
        · rfl
        · exact absurd hpd hd
      simp [validate_ean13_checksum, hd', h13] at h
  · simp [validate_ean13_checksum, h13] at h

theorem validate_ean8_error (code : Code) (e : String)
    (h : validate_ean8_checksum code = Except.error e) :
    e = "invalid literal for int() with base 10" := by
  by_cases h8 : code.length = 8
  · by_cases hd : pyIsdigit code = true
    · have hall : ∀ c ∈ code.take 7, c.isdigit = true := by
        intro c hc
        exact List.all_eq_true.mp (pyIsdigit_all code hd) c
          (List.mem_of_mem_take hc)
      unfold validate_ean8_checksum calculate_ean8_checksum at h
      rw [if_neg (show ¬ (code.length ≠ 8) by simp [h8]),
        if_neg (show ¬ ((!pyIsdigit code) = true) by simp [hd]),
        if_neg (show ¬ (code.length < 7) by simp [h8])] at h
      cases hg : guardedWeightedSum w31 0 (code.take 7) with
      | error e' =>
          simp only [hg] at h
          cases h
          exact guardedWeightedSum_error w31 _ 0 _ hall hg
      | ok total =>
          simp only [hg] at h
          cases hp : pyInt (code.getLastD pyZero) with
          | ok v =>
              simp only [hp] at h
              cases h
          | error e' =>
              simp only [hp] at h
              cases h
              exact pyInt_error _ _ hp
    · have hd' : pyIsdigit code = false := by
        cases hpd : pyIsdigit code
        · rfl
        · exact absurd hpd hd
      simp [validate_ean8_checksum, hd', h8] at h
  · simp [validate_ean8_checksum, h8] at h

theorem validate_upc_error (code : Code) (e : String)
    (h : validate_upc_checksum code = Except.error e) :
    e = "invalid literal for int() with base 10" := by
  by_cases h12 : code.length = 12
  · by_cases hd : pyIsdigit code = true
    · unfold validate_upc_checksum at h
      rw [if_neg (show ¬ (code.length ≠ 12) by simp [h12]),
        if_neg (show ¬ ((!pyIsdigit code) = true) by simp [hd])] at h
      cases hg : intWeightedSum w31 0 (code.take 11) with
      | error e' =>
          simp only [hg] at h
          cases h
          exact intWeightedSum_error w31 _ 0 _ hg
      | ok total =>
          simp only [hg] at h
          cases hp : pyInt (code.getLastD pyZero) with
          | ok v =>
              simp only [hp] at h
              cases h
          | error e' =>
              simp only [hp] at h
              cases h
              exact pyInt_error _ _ hp
    · have hd' : pyIsdigit code = false := by
        cases hpd : pyIsdigit code
        · rfl
        · exact absurd hpd hd
      simp [validate_upc_checksum, hd', h12] at h
  · simp [validate_upc_checksum, h12] at h

theorem is_valid_barcode_error (code : Code) (e : String)
    (h : is_valid_barcode code = Except.error e) :
    e = "invalid literal for int() with base 10" := by
  by_cases hd : pyIsdigit code
  · by_cases h13 : code.length = 13
    · simp only [is_valid_barcode, detect_symbology, hd, h13] at h
      cases hv : validate_ean13_checksum code with
      | ok b => cases b <;> simp [hv] at h
      | error e' =>
          simp [hv] at h
          subst h
          exact validate_ean13_error code _ hv
    · by_cases h8 : code.length = 8
      · simp only [is_valid_barcode, detect_symbology, hd, h13, h8] at h
        cases hv : validate_ean8_checksum code with
        | ok b => cases b <;> simp [hv] at h
        | error e' =>
            simp [hv] at h
            subst h
            exact validate_ean8_error code _ hv
      · by_cases h12 : code.length = 12
        · simp only [is_valid_barcode, detect_symbology, hd, h13, h8,
            h12] at h
          cases hv : validate_upc_checksum code with
          | ok b => cases b <;> simp [hv] at h
          | error e' =>
              simp [hv] at h
              subst h
              exact validate_upc_error code _ hv
        · by_cases h67 : code.length = 6 ∨ code.length = 7
          · simp [is_valid_barcode, detect_symbology, hd, h13, h8, h12,
              h67] at h
          · simp [is_valid_barcode, detect_symbology, hd, h13, h8, h12,
              h67] at h
  · simp [is_valid_barcode, hd] at h

theorem pureCharSum_w13_succ (l : Code) :
    ∀ i, pureCharSum w13 (i + 1) l = pureCharSum w31 i l := by
  induction l with
  | nil => intro i; rfl
  | cons c rest ih =>
      intro i
      have hw : w13 (i + 1) = w31 i := by
        by_cases h : i % 2 = 0
        · have h1 : (i + 1) % 2 = 1 := by omega
          simp [w13, w31, h, h1]
        · have h1 : (i + 1) % 2 = 0 := by omega
          simp [w13, w31, h, h1]
      simp only [pureCharSum, ih (i + 1), hw]

/-- Thirteen copies of the superscript `'²'`: all-`isdigit` by Python, yet
every `int()` conversion on it raises. -/
def thirteenSup2 : Code := List.replicate 13 sup2

/-- Counterexample to C1 as stated: `'²'` repeated 13 times is a digit-only
string of length 13 by Python's `isdigit`, yet `is_valid_barcode` raises
ValueError (from `int(digit)` inside the checksum) instead of reporting a
verdict — so the claimed characterization of every string fails. -/
theorem C1_counterexample :
    pyIsdigit thirteenSup2 = true ∧
    thirteenSup2.length = 13 ∧
    is_valid_barcode thirteenSup2 =
      Except.error "invalid literal for int() with base 10" := by
  refine ⟨by decide, by decide, by decide⟩

/-- C1 (amended): for every decimal-safe string — one with no digit
character lacking a decimal value, which covers every ASCII string —
`is_valid_barcode(c)` reports valid iff `c` is all-digits and either a
length-13 EAN-13 with valid checksum, length-8 EAN-8 with valid checksum,
length-12 UPC-A with valid checksum, or length 6 or 7 (UPC-E, accepted
without checksum verification); for a non-digit string or a string of any
other length it reports invalid with symbology UNKNOWN.  (On strings with a
digit-without-decimal character such as `'²'` the validator can instead
raise ValueError.) -/
theorem C1_is_valid_barcode_spec (code : Code)
    (hsafe : decimalSafe code = true) :
    (∃ msg, is_valid_barcode code =
      Except.ok (specValid code, detect_symbology code, msg)) ∧
    ((pyIsdigit code = false ∨ code.length ∉ [6, 7, 8, 12, 13]) →
      ∃ msg, is_valid_barcode code =
        Except.ok (false, BarcodeSymbology.unknown, msg)) := by
  refine ⟨is_valid_barcode_characterize code hsafe, ?_⟩
  intro h
  obtain ⟨msg, hrun⟩ := is_valid_barcode_characterize code hsafe
  refine ⟨msg, ?_⟩
  rcases h with hd | hlen
  · have h1 : specValid code = false := by simp [specValid, hd]
    have h2 : detect_symbology code = .unknown := by
      simp [detect_symbology, hd]
    rw [hrun, h1, h2]
  · simp only [List.mem_cons, List.not_mem_nil, or_false, not_or] at hlen
    obtain ⟨h6, h7, h8, h12, h13⟩ := hlen
    have h1 : specValid code = false := by
      simp [specValid, h6, h7, h8, h12, h13]
    have h2 : detect_symbology code = .unknown := by
      simp [detect_symbology, h6, h7, h8, h12, h13]
    rw [hrun, h1, h2]

/-- Thirteen Arabic-Indic zeros (U+0660): a decimal-safe all-digit string
of length 13 with a valid checksum. -/
def arab13 : Code := List.replicate 13 arabicZero

/-- Witness for C1 (amended) at thirteen Arabic-Indic zeros: Python
accepts non-ASCII decimal digits, and the source reports the string a valid
EAN-13. -/
theorem C1_witness :
    ∃ msg, is_valid_barcode arab13 =
      Except.ok (true, BarcodeSymbology.ean13, msg) := by
  obtain ⟨msg, h⟩ := (C1_is_valid_barcode_spec arab13 (by decide)).1
  refine ⟨msg, ?_⟩
  have h1 : specValid arab13 = true := by decide
  have h2 : detect_symbology arab13 = BarcodeSymbology.ean13 := by decide
  rw [h, h1, h2]

/-- Counterexample to C10 as stated: on `'²'` repeated (13, 8 and 12 times)
each validator entry point raises ValueError — `'²'.isdigit()` is true, so
the guards pass, and `int('²')` then raises inside the checksum loop. -/
theorem C10_counterexample :
    pyIsdigit thirteenSup2 = true ∧
    validate_ean13_checksum thirteenSup2 =
      Except.error "invalid literal for int() with base 10" ∧
    validate_ean8_checksum (List.replicate 8 sup2) =
      Except.error "invalid literal for int() with base 10" ∧
    validate_upc_checksum (List.replicate 12 sup2) =
      Except.error "invalid literal for int() with base 10" ∧
    is_valid_barcode thirteenSup2 =
      Except.error "invalid literal for int() with base 10" := by
  refine ⟨by decide, by decide, by decide, by decide, by decide⟩

/-- C10 (amended): on every decimal-safe string — in particular every ASCII
string, including empty, non-numeric and wrong-length ones — all four
validator entry points return normally; and on every string whatsoever the
only error any entry point can produce is the `int()` ValueError: the
explicit raise branches of `calculate_ean13_checksum` and
`calculate_ean8_checksum` (non-digit character, too-short code) are
unreachable from these entry points because each validator checks length
and digit-only content first. -/
theorem C10_validators_decimal_safe (code : Code) :
    (decimalSafe code = true →
      (∃ b, validate_ean13_checksum code = Except.ok b) ∧
      (∃ b, validate_ean8_checksum code = Except.ok b) ∧
      (∃ b, validate_upc_checksum code = Except.ok b) ∧
      (∃ r, is_valid_barcode code = Except.ok r)) ∧
    (∀ e, (validate_ean13_checksum code = Except.error e ∨
           validate_ean8_checksum code = Except.error e ∨
           validate_upc_checksum code = Except.error e ∨
           is_valid_barcode code = Except.error e) →
      e = "invalid literal for int() with base 10") := by
  constructor
  · intro hsafe
    refine ⟨⟨_, validate_ean13_characterize code hsafe⟩,
      ⟨_, validate_ean8_characterize code hsafe⟩,
      ⟨_, validate_upc_characterize code hsafe⟩, ?_⟩
    obtain ⟨msg, h⟩ := is_valid_barcode_characterize code hsafe
    exact ⟨_, h⟩
  · intro e he
    rcases he with h | h | h | h
    · exact validate_ean13_error code e h
    · exact validate_ean8_error code e h
    · exact validate_upc_error code e h
    · exact is_valid_barcode_error code e h

/-- Witness for C10 (amended): the decimal-safe non-numeric ASCII string
`"AB"` returns normally from the EAN-13 validator, and the error raised on
the superscript string is the `int()` one, not an explicit raise branch. -/
theorem C10_witness :
    (∃ b, validate_ean13_checksum (asciiCode ['A', 'B']) = Except.ok b) ∧
    "invalid literal for int() with base 10" =
      "invalid literal for int() with base 10" :=
  ⟨((C10_validators_decimal_safe (asciiCode ['A', 'B'])).1 (by decide)).1,
   (C10_validators_decimal_safe thirteenSup2).2
     "invalid literal for int() with base 10" (Or.inl (by decide))⟩

/-- C4: for every code the validator accepts as a valid EAN-13,
`normalize_barcode` is the identity; and for every 12-character code
passing the UPC-A checksum, `normalize_barcode(c, UPC-A) = "0" + c` and the
result passes EAN-13 checksum validation. -/
theorem C4_normalize_barcode (code : Code) :
    (∀ msg, is_valid_barcode code = Except.ok (true, .ean13, msg) →
      normalize_barcode code .ean13 = code) ∧
    (code.length = 12 → validate_upc_checksum code = Except.ok true →
      normalize_barcode code .upcA = pyZero :: code ∧
        validate_ean13_checksum (pyZero :: code) = Except.ok true) := by
  constructor
  · intro _ _
    simp [normalize_barcode]
  · intro hl hupc
    have hd : pyIsdigit code = true := by
      by_contra hd
      have hd' : pyIsdigit code = false := by
        cases hpd : pyIsdigit code
        · rfl
        · exact absurd hpd hd
      simp [validate_upc_checksum, hd', hl] at hupc
    unfold validate_upc_checksum at hupc
    rw [if_neg (show ¬ (code.length ≠ 12) by simp [hl]),
      if_neg (show ¬ ((!pyIsdigit code) = true) by simp [hd])] at hupc
    cases hs : intWeightedSum w31 0 (code.take 11) with
    | error e =>
        simp only [hs] at hupc
        cases hupc
    | ok total =>
        simp only [hs] at hupc
        cases hp : pyInt (code.getLastD pyZero) with
        | error e =>
            simp only [hp] at hupc
            cases hupc
        | ok actual =>
            simp only [hp, Except.ok.injEq] at hupc
            rw [decide_eq_true_eq] at hupc
            obtain ⟨hdec11, htotal⟩ :=
              intWeightedSum_inv w31 (code.take 11) 0 total hs
            refine ⟨by simp [normalize_barcode, hl], ?_⟩
            have hlen13 : (pyZero :: code).length = 13 := by simp [hl]
            have hd2 : pyIsdigit (pyZero :: code) = true := by
              have hall := pyIsdigit_all code hd
              simp [pyIsdigit, List.all_cons, pyZero, hall]
            have halldig :
                (pyZero :: code.take 11).all PyChar.isdigit = true := by
              have := all_take PyChar.isdigit code 11 (pyIsdigit_all code hd)
              simp [List.all_cons, pyZero, this]
            have halldec : (pyZero :: code.take 11).all
                (fun c => c.decimal.isSome) = true := by
              simp [List.all_cons, pyZero, hdec11]
            have hsum :=
              guardedWeightedSum_ok w13 (pyZero :: code.take 11) 0
                halldig halldec
            have hshift : pureCharSum w13 0 (pyZero :: code.take 11) =
                pureCharSum w31 0 (code.take 11) := by
              have h1 := pureCharSum_w13_succ (code.take 11) 0
              simp only [Nat.zero_add] at h1
              show decVal pyZero * w13 0 +
                pureCharSum w13 1 (code.take 11) = _
              rw [h1]
              simp [decVal, pyZero]
            have hlast2 :
                pyInt ((pyZero :: code).getLastD pyZero) =
                  Except.ok actual := by
              rw [List.getLastD_cons]
              exact hp
            rw [validate_ean13_run (pyZero :: code) hlen13 hd2 _ actual
              hsum hlast2]
            rw [hshift, ← htotal]
            simp [hupc]

/-- The spec's calibration EAN-13 `"4006381333931"` as an ASCII string. -/
def ean13Demo : Code :=
  asciiCode ['4', '0', '0', '6', '3', '8', '1', '3', '3', '3', '9', '3', '1']

/-- The spec's calibration UPC-A `"012345678905"` as an ASCII string. -/
def upcDemo : Code :=
  asciiCode ['0', '1', '2', '3', '4', '5', '6', '7', '8', '9', '0', '5']

/-- Witness for C4 at the spec's calibration inputs: the valid EAN-13
`"4006381333931"` is unchanged by normalization, and the valid UPC-A
`"012345678905"` normalizes to `"0012345678905"`, which passes EAN-13
validation. -/
theorem C4_witness :
    normalize_barcode ean13Demo .ean13 = ean13Demo ∧
    normalize_barcode upcDemo .upcA = pyZero :: upcDemo ∧
    validate_ean13_checksum (pyZero :: upcDemo) = Except.ok true := by
  refine ⟨?_, ?_⟩
  · exact (C4_normalize_barcode ean13Demo).1 "" (by decide)
  · exact (C4_normalize_barcode upcDemo).2 (by decide) (by decide)

/-! ## Job queue (`src/models/job.py`, `src/db/repositories/jobs.py`) -/

/-- `JobType` (models/job.py lines 14–20). -/
inductive JobType where
  | preprocess
  | decode_primary
  | decode_fallback
  | cleanup
deriving DecidableEq, Repr

/-- `JobStatus` (models/job.py lines 23–30). -/
inductive JobStatus where
  | pending
  | in_progress
  | completed
  | failed
  | cancelled
deriving DecidableEq, Repr

/-- `JobDoc` (models/job.py): the fields the queue operations read or write.
Timestamps are integers (seconds); optional datetimes are `Option Int`. -/
structure JobDoc where
  job_id : String
  job_type : JobType
  image_id : String
  batch_id : String
  status : JobStatus
  priority : Int
  attempt_count : Nat
  max_attempts : Nat
  worker_id : Option String
  started_at : Option Int
  completed_at : Option Int
  scheduled_for : Int
  locked_until : Option Int
deriving DecidableEq, Repr

/-- The pending branch of the `dequeue` query (jobs.py lines 69–74):
`status = pending ∧ scheduled_for ≤ now`, plus the `job_type` filter when one
is supplied. -/
def dequeuePendingMatch (now : Int) (job_type : Option JobType)
    (j : JobDoc) : Bool :=
  j.status = JobStatus.pending && j.scheduled_for ≤ now &&
    (match job_type with
     | some t => j.job_type = t
     | none => true)

/-- The expired-lease disjunct of the `dequeue` query (jobs.py lines 77–85):
`status = in_progress ∧ locked_until < now`.  In the source this disjunct
does NOT carry the `job_type` filter (the filter is added to `query` before
`query_with_expired` is built, and only to the first disjunct). -/
def dequeueExpiredMatch (now : Int) (j : JobDoc) : Bool :=
  j.status = JobStatus.in_progress &&
    (match j.locked_until with
     | some lu => decide (lu < now)
     | none => false)

/-- The full `query_with_expired` of `dequeue`. -/
def dequeueMatch (now : Int) (job_type : Option JobType) (j : JobDoc) : Bool :=
  dequeuePendingMatch now job_type j || dequeueExpiredMatch now j

/-- Mongo sort order `[("priority", -1), ("scheduled_for", 1)]`:
`a` sorts strictly before `b`. -/
def dequeueBefore (a b : JobDoc) : Bool :=
  b.priority < a.priority ||
    (a.priority = b.priority && a.scheduled_for < b.scheduled_for)

/-- The document `find_one_and_update` picks: the first document in sort
order among the matches (ties keep the earlier document). -/
def selectFirst (bef : JobDoc → JobDoc → Bool) : List JobDoc → Option JobDoc
  | [] => none
  | j :: rest =>
    match selectFirst bef rest with
    | none => some j
    | some k => if bef k j then some k else some j

theorem selectFirst_mem (bef : JobDoc → JobDoc → Bool) :
    ∀ (l : List JobDoc) (j : JobDoc), selectFirst bef l = some j → j ∈ l := by
  intro l
  induction l with
  | nil => intro j h; simp [selectFirst] at h
  | cons a rest ih =>
      intro j h
      cases hrest : selectFirst bef rest with
      | none =>
          simp only [selectFirst, hrest] at h
          cases h
          exact List.mem_cons_self a rest
      | some k =>
          simp only [selectFirst, hrest] at h
          by_cases hb : bef k a = true
          · rw [if_pos hb] at h
            cases h
            exact List.mem_cons_of_mem a (ih _ hrest)
          · rw [if_neg hb] at h
            cases h
            exact List.mem_cons_self a rest

/-- `dequeue`'s update document (jobs.py lines 87–96), applied to the
selected job: set in_progress, record the worker, stamp `started_at`, set
the lease to `now + lock_duration`, and `$inc` the attempt counter. -/
def dequeueUpdate (now : Int) (worker_id : String) (lock_duration : Int)
    (j : JobDoc) : JobDoc :=
  { j with
    status := JobStatus.in_progress
    worker_id := some worker_id
    started_at := some now
    locked_until := some (now + lock_duration)
    attempt_count := j.attempt_count + 1 }

/-- `JobRepository.dequeue` (jobs.py lines 55–107): select the first job in
sort order matching `query_with_expired`, apply the update, and return the
updated document (`return_document=True`); `none` when nothing matches. -/
def dequeue (now : Int) (job_type : Option JobType) (worker_id : String)
    (lock_duration : Int) (jobs : List JobDoc) : Option JobDoc :=
  match selectFirst dequeueBefore (jobs.filter (dequeueMatch now job_type)) with
  | none => none
  | some j => some (dequeueUpdate now worker_id lock_duration j)

/-- A concrete queue of one expired in_progress `preprocess` job, used to
exhibit that `dequeue` with a different requested job type still steals it. -/
def stolenJob : JobDoc :=
  { job_id := "j1"
    job_type := JobType.preprocess
    image_id := "i1"
    batch_id := "b1"
    status := JobStatus.in_progress
    priority := 0
    attempt_count := 1
    max_attempts := 3
    worker_id := some "w0"
    started_at := some 0
    completed_at := none
    scheduled_for := 0
    locked_until := some 50 }

/-- Counterexample to C3 as stated: at `now = 100`, a `dequeue` requesting
job type `decode_primary` returns the expired-lease `preprocess` job — the
returned job does not match the requested job type. -/
theorem C3_counterexample :
    (dequeue 100 (some JobType.decode_primary) "w1" 300 [stolenJob]).map
        JobDoc.job_type = some JobType.preprocess ∧
      JobType.preprocess ≠ JobType.decode_primary := by
  constructor
  · rfl
  · decide

/-- C3 (amended): a job is returned by `dequeue` only if it is runnable —
pending with `scheduled_for ≤ now` and matching the requested job type when
one is supplied, or in_progress with an expired lease (`locked_until < now`),
in which case the requested job type is NOT enforced; the returned document
is the selected job with status in_progress, attempt_count incremented by
one, the worker recorded, and `locked_until = now + lock_duration`.  When no
job matches, `dequeue` returns nothing. -/
theorem C3_dequeue_spec (now lock : Int) (jt : Option JobType) (wid : String)
    (jobs : List JobDoc) :
    (∀ j', dequeue now jt wid lock jobs = some j' →
      ∃ j, j ∈ jobs ∧
        ((j.status = JobStatus.pending ∧ j.scheduled_for ≤ now ∧
            (∀ t, jt = some t → j.job_type = t)) ∨
         (j.status = JobStatus.in_progress ∧
            ∃ lu, j.locked_until = some lu ∧ lu < now)) ∧
        j' = dequeueUpdate now wid lock j ∧
        j'.status = JobStatus.in_progress ∧
        j'.attempt_count = j.attempt_count + 1 ∧
        j'.worker_id = some wid ∧
        j'.locked_until = some (now + lock)) ∧
    ((∀ j ∈ jobs, dequeueMatch now jt j = false) →
      dequeue now jt wid lock jobs = none) := by
  constructor
  · intro j' hj'
    cases hsel : selectFirst dequeueBefore
        (jobs.filter (dequeueMatch now jt)) with
    | none =>
        simp only [dequeue, hsel] at hj'
        cases hj'
    | some j =>
        simp only [dequeue, hsel, Option.some.injEq] at hj'
        subst hj'
        have hmem := selectFirst_mem dequeueBefore _ j hsel
        rw [List.mem_filter] at hmem
        obtain ⟨hmemj, hmatch⟩ := hmem
        refine ⟨j, hmemj, ?_, ?_, ?_, ?_, ?_, ?_⟩
        · simp only [dequeueMatch, dequeuePendingMatch, dequeueExpiredMatch,
            Bool.or_eq_true, Bool.and_eq_true, decide_eq_true_eq] at hmatch
          rcases hmatch with ⟨⟨hs, hsched⟩, htype⟩ | ⟨hs, hlock⟩
          · refine Or.inl ⟨hs, hsched, ?_⟩
            intro t ht
            rw [ht] at htype
            simpa using htype
          · refine Or.inr ⟨hs, ?_⟩
            cases hlu : j.locked_until with
            | none => rw [hlu] at hlock; cases hlock
            | some lu =>
                rw [hlu] at hlock
                exact ⟨lu, rfl, by simpa using hlock⟩
        · rfl
        · rfl
        · rfl
        · rfl
        · rfl
  · intro hall
    unfold dequeue
    have : jobs.filter (dequeueMatch now jt) = [] :=
      List.filter_eq_nil_iff.mpr (by simpa using hall)
    rw [this]
    rfl

/-- A pending job scheduled in the future: not runnable at time 100. -/
def futureJob : JobDoc :=
  { stolenJob with status := JobStatus.pending, scheduled_for := 200 }

/-- Witness for C3 (amended) on a concrete queue with no runnable job: a
pending job scheduled in the future is not dequeued. -/
theorem C3_witness :
    dequeue 100 none "w1" 300 [futureJob] = none :=
  (C3_dequeue_spec 100 300 none "w1" _).2 (by decide)

/-- The deletion filter of `cleanup_old_completed` (jobs.py lines 240–247):
status completed or failed, and a `completed_at` timestamp strictly older
than `now − days·86400`.  A missing `completed_at` never matches `$lt`. -/
def cleanupMatch (now days : Int) (j : JobDoc) : Bool :=
  (j.status = JobStatus.completed || j.status = JobStatus.failed) &&
    (match j.completed_at with
     | some t => decide (t < now - days * 86400)
     | none => false)

/-- `JobRepository.cleanup_old_completed`: `delete_many` of the matching
jobs; returns the remaining collection and the deleted count. -/
def cleanup_old_completed (now days : Int) (jobs : List JobDoc) :
    List JobDoc × Nat :=
  (jobs.filter (fun j => !cleanupMatch now days j),
   (jobs.filter (cleanupMatch now days)).length)

/-- The deletion predicate asserted by claim C8 without the `cancelled`
status, written as a proposition: completed or failed, with a completion
timestamp older than the cutoff. -/
def specCleanupDelete (now days : Int) (j : JobDoc) : Prop :=
  (j.status = JobStatus.completed ∨ j.status = JobStatus.failed) ∧
    ∃ t, j.completed_at = some t ∧ t < now - days * 86400

instance (now days : Int) (j : JobDoc) : Decidable (specCleanupDelete now days j) := by
  unfold specCleanupDelete
  cases j.completed_at <;> exact inferInstance

theorem cleanupMatch_iff (now days : Int) (j : JobDoc) :
    cleanupMatch now days j = true ↔ specCleanupDelete now days j := by
  unfold cleanupMatch specCleanupDelete
  cases hc : j.completed_at with
  | none => simp
  | some t => simp [Bool.and_eq_true, Bool.or_eq_true]

/-- An old cancelled job: `completed_at` far in the past. -/
def oldCancelledJob : JobDoc :=
  { job_id := "j2"
    job_type := JobType.cleanup
    image_id := "i2"
    batch_id := "b2"
    status := JobStatus.cancelled
    priority := 0
    attempt_count := 1
    max_attempts := 3
    worker_id := none
    started_at := some 0
    completed_at := some 0
    scheduled_for := 0
    locked_until := none }

/-- Counterexample to C8 as stated: a cancelled job whose completion
timestamp is older than the 7-day cutoff is NOT deleted by
`cleanup_old_completed` (the source only matches completed and failed). -/
theorem C8_counterexample :
    oldCancelledJob.status = JobStatus.cancelled ∧
    oldCancelledJob.completed_at = some 0 ∧
    (0 : Int) < 1000000 - 7 * 86400 ∧
    cleanup_old_completed 1000000 7 [oldCancelledJob] =
      ([oldCancelledJob], 0) := by
  refine ⟨rfl, rfl, by decide, ?_⟩
  rfl

/-- C8 (amended): `cleanup_old_completed(days)` deletes exactly the jobs
whose status is completed or failed and whose completion timestamp is older
than `now − days`; cancelled jobs, jobs in any other status, and jobs with a
newer (or absent) completion timestamp are left unchanged. -/
theorem C8_cleanup_old_completed (now days : Int) (jobs : List JobDoc)
    (j : JobDoc) :
    (j ∈ (cleanup_old_completed now days jobs).1 ↔
      j ∈ jobs ∧ ¬ specCleanupDelete now days j) ∧
    (cleanup_old_completed now days jobs).2 =
      (jobs.filter (fun x => decide (specCleanupDelete now days x))).length := by
  constructor
  · rw [cleanup_old_completed]
    simp only [List.mem_filter, Bool.not_eq_true', ← cleanupMatch_iff]
    simp
  · rw [cleanup_old_completed]
    have : jobs.filter (cleanupMatch now days) =
        jobs.filter (fun x => decide (specCleanupDelete now days x)) := by
      apply List.filter_congr
      intro x _
      have hiff := cleanupMatch_iff now days x
      by_cases h : specCleanupDelete now days x
      · simp [hiff.mpr h, h]
      · have hb : cleanupMatch now days x = false := by
          cases hcb : cleanupMatch now days x
          · rfl
          · exact absurd (hiff.mp hcb) h
        simp [hb, h]
    rw [this]

/-! ## Image pipeline data (`src/models/image.py`, `src/models/detection.py`) -/

/-- `ImageStatus` (models/image.py lines 14–26). -/
inductive ImageStatus where
  | pending
  | preprocessing
  | preprocessed
  | decoding_primary
  | decoded_primary
  | decoding_fallback
  | decoded_fallback
  | manual_review
  | decoded_manual
  | failed
deriving DecidableEq, Repr

/-- `DetectionSource` (models/detection.py lines 13–19). -/
inductive DetectionSource where
  | primary_zbar
  | primary_zxing
  | fallback_gemini
  | manual
deriving DecidableEq, Repr

/-- The first path segment a blob is moved under (`BlobPaths`,
storage/paths.py). -/
inductive BlobFolder where
  | processed
  | failed
  | manualReview
deriving DecidableEq, Repr

/-- `DetectionDoc` (models/detection.py lines 32–77): the fields the claims
read.  `id` stands for the Mongo `_id` surrogate key; confidence floats are
carried opaquely as rationals (no arithmetic is performed on them). -/
structure DetectionDoc where
  id : Nat
  image_id : String
  batch_id : String
  code : Code
  symbology : BarcodeSymbology
  source : DetectionSource
  confidence : Option Rat
  checksum_valid : Bool
  length_valid : Bool
  numeric_only : Bool
  ambiguous : Bool
  chosen : Bool
  rejected : Bool
  gemini_confidence : Option Rat
  gemini_symbology_guess : Option String
  product_found : Bool
deriving DecidableEq, Repr

/-- `GeminiResult` (llm/gemini.py lines 79–89): one candidate returned by the
AI decoder, already validated locally by `is_valid_barcode`. -/
structure GeminiResult where
  code : Code
  symbology_guess : String
  confidence : Rat
  validated_symbology : BarcodeSymbology
  is_valid : Bool
  checksum_valid : Bool
deriving DecidableEq, Repr

/-! ## Fallback-decode worker branch logic
(`workers/decode_fallback/main.py`) -/

/-- The detection document built by the fallback worker for one Gemini
result (decode_fallback/main.py lines 136–151 and 182–198).  `ambiguous` is
false in the single-result branch and true in the multi-result branch;
`chosen` and `rejected` take their pydantic defaults (false).  The product
catalogue lookup `product_repo.get_by_any_code` is abstracted as the
predicate `productExists`. -/
def mkFallbackDetection (image_id batch_id : String)
    (productExists : Code → Bool) (ambiguous : Bool)
    (r : GeminiResult) : DetectionDoc :=
  { id := 0
    image_id := image_id
    batch_id := batch_id
    code := r.code
    symbology := r.validated_symbology
    source := DetectionSource.fallback_gemini
    confidence := some r.confidence
    checksum_valid := r.checksum_valid
    length_valid := true
    numeric_only := pyIsdigit r.code
    ambiguous := ambiguous
    chosen := false
    rejected := false
    gemini_confidence := some r.confidence
    gemini_symbology_guess := some r.symbology_guess
    product_found := productExists r.code }

/-- What one fallback-processing of an image persists: the created
detections, the new image status, and the folder the blob is moved to. -/
structure FallbackOutcome where
  detections : List DetectionDoc
  status : ImageStatus
  folder : BlobFolder
deriving DecidableEq, Repr

/-- The branch logic of `process_fallback_images` after the Gemini call
(decode_fallback/main.py lines 84–223): keep the results that pass the local
validator (`is_valid`), then route — 0 valid: no detection, blob to
`failed/`, status failed; 1 valid: one detection, blob to `processed/`,
status decoded_fallback; 2 or more valid: one detection per reading, each
`ambiguous=true`, blob to `manual-review/`, status manual_review. -/
def fallbackBranch (image_id batch_id : String) (productExists : Code → Bool)
    (results : List GeminiResult) : FallbackOutcome :=
  match results.filter (fun r => r.is_valid) with
  | [] => ⟨[], ImageStatus.failed, BlobFolder.failed⟩
  | [r] =>
      ⟨[mkFallbackDetection image_id batch_id productExists false r],
        ImageStatus.decoded_fallback, BlobFolder.processed⟩
  | r1 :: r2 :: rs =>
      ⟨(r1 :: r2 :: rs).map
          (mkFallbackDetection image_id batch_id productExists true),
        ImageStatus.manual_review, BlobFolder.manualReview⟩

/-- C2: with `n` the number of AI-returned codes passing the local validator
— `n = 0` routes the image to failed with its blob under `failed/`; `n = 1`
creates exactly one detection with source `fallback_gemini` (the code-side
name of the spec's `fallback_ai`) and routes to decoded_fallback under
`processed/`; `n ≥ 2` creates one detection per code, each `ambiguous=true`,
and routes to manual_review under `manual-review/`.  In particular `n = 2`
never yields decoded_fallback. -/
theorem C2_fallback_branch (iid bid : String) (pe : Code → Bool)
    (results : List GeminiResult) :
    ((results.filter (fun r => r.is_valid)).length = 0 →
      fallbackBranch iid bid pe results =
        ⟨[], ImageStatus.failed, BlobFolder.failed⟩) ∧
    ((results.filter (fun r => r.is_valid)).length = 1 →
      (fallbackBranch iid bid pe results).detections.length = 1 ∧
      (∀ d ∈ (fallbackBranch iid bid pe results).detections,
        d.source = DetectionSource.fallback_gemini ∧ d.ambiguous = false) ∧
      (fallbackBranch iid bid pe results).status =
        ImageStatus.decoded_fallback ∧
      (fallbackBranch iid bid pe results).folder = BlobFolder.processed) ∧
    (2 ≤ (results.filter (fun r => r.is_valid)).length →
      (fallbackBranch iid bid pe results).detections.length =
        (results.filter (fun r => r.is_valid)).length ∧
      (∀ d ∈ (fallbackBranch iid bid pe results).detections,
        d.source = DetectionSource.fallback_gemini ∧ d.ambiguous = true) ∧
      (fallbackBranch iid bid pe results).status =
        ImageStatus.manual_review ∧
      (fallbackBranch iid bid pe results).folder =
        BlobFolder.manualReview) ∧
    ((results.filter (fun r => r.is_valid)).length = 2 →
      (fallbackBranch iid bid pe results).status ≠
        ImageStatus.decoded_fallback) := by
  cases hv : results.filter (fun r => r.is_valid) with
  | nil =>
      refine ⟨fun _ => ?_, fun h1 => ?_, fun h2 => ?_, fun h2 => ?_⟩
      · simp [fallbackBranch, hv]
      · simp at h1
      · simp at h2
      · simp at h2
  | cons r1 tail =>
      cases tail with
      | nil =>
          refine ⟨fun h0 => ?_, fun _ => ?_, fun h2 => ?_, fun h2 => ?_⟩
          · simp at h0
          · simp [fallbackBranch, hv, mkFallbackDetection]
          · simp only [List.length_cons, List.length_nil] at h2; omega
          · simp only [List.length_cons, List.length_nil] at h2; omega
      | cons r2 rs =>
          refine ⟨fun h0 => ?_, fun h1 => ?_, fun _ => ?_, fun _ => ?_⟩
          · simp at h0
          · simp only [List.length_cons, List.length_nil] at h1; omega
          · refine ⟨?_, ?_, ?_, ?_⟩
            · simp [fallbackBranch, hv]
            · intro d hd
              simp only [fallbackBranch, hv, List.mem_map] at hd
              obtain ⟨r, -, rfl⟩ := hd
              exact ⟨rfl, rfl⟩
            · simp [fallbackBranch, hv]
            · simp [fallbackBranch, hv]
          · simp [fallbackBranch, hv]

/-- Two concrete Gemini results that pass the validator (the spec's S3
codes). -/
def s3Result1 : GeminiResult :=
  { code := asciiCode
      ['4', '0', '0', '6', '3', '8', '1', '3', '3', '3', '9', '3', '1']
    symbology_guess := "EAN-13"
    confidence := 9/10
    validated_symbology := BarcodeSymbology.ean13
    is_valid := true
    checksum_valid := true }

/-- The second S3 result. -/
def s3Result2 : GeminiResult :=
  { s3Result1 with
    code := asciiCode
      ['5', '9', '0', '1', '2', '3', '4', '1', '2', '3', '4', '5', '7'] }

/-- Witness for C2 at the spec's S3 scenario: exactly two valid candidates
route the image to manual_review, with every created detection marked
ambiguous. -/
theorem C2_witness :
    (∀ d ∈ (fallbackBranch "img1" "batch1" (fun _ => false)
        [s3Result1, s3Result2]).detections,
      d.source = DetectionSource.fallback_gemini ∧ d.ambiguous = true) ∧
    (fallbackBranch "img1" "batch1" (fun _ => false)
        [s3Result1, s3Result2]).status = ImageStatus.manual_review :=
  ⟨((C2_fallback_branch "img1" "batch1" (fun _ => false)
      [s3Result1, s3Result2]).2.2.1 (by decide)).2.1,
   ((C2_fallback_branch "img1" "batch1" (fun _ => false)
      [s3Result1, s3Result2]).2.2.1 (by decide)).2.2.1⟩

/-! ## Gemini token accounting (decode_fallback/main.py lines 105–107,
decode_failed/main.py lines 120–123) -/

/-- Python truthiness of the `tokens_used` field (`if response.tokens_used:`):
false for `None` and for `0`. -/
def truthyTokens : Option Nat → Bool
  | none => false
  | some n => n ≠ 0

/-- The fallback worker's token update (decode_fallback/main.py lines
105–107): when the response reports a truthy token count, the counter is
assigned that count.  (This is the image's first AI call, so the previous
counter is unset.) -/
def fallbackTokensUpdate (prev reported : Option Nat) : Option Nat :=
  if truthyTokens reported then reported else prev

/-- The retry worker's token update (decode_failed/main.py lines 120–123):
`current = gemini_tokens_used or 0`, then add the reported count. -/
def failedTokensUpdate (prev reported : Option Nat) : Option Nat :=
  if truthyTokens reported then some (prev.getD 0 + reported.getD 0) else prev

/-- C9: starting from an image with no AI usage recorded (the state in which
the fallback worker runs, since it performs the image's first AI call), one
fallback call reporting `t1` tokens followed by one retry-worker call
reporting `t2` tokens leaves the cumulative counter at `t1 + t2`; and the
retry worker always adds a reported token count to the existing counter. -/
theorem C9_tokens_accumulate (t1 t2 : Option Nat) :
    (failedTokensUpdate (fallbackTokensUpdate none t1) t2).getD 0 =
      t1.getD 0 + t2.getD 0 ∧
    (∀ prev r, truthyTokens r = true →
      failedTokensUpdate (some prev) r = some (prev + r.getD 0)) := by
  constructor
  · cases t1 with
    | none =>
        cases t2 with
        | none => rfl
        | some b =>
            by_cases hb : b = 0
            · simp [fallbackTokensUpdate, failedTokensUpdate, truthyTokens, hb]
            · simp [fallbackTokensUpdate, failedTokensUpdate, truthyTokens, hb]
    | some a =>
        cases t2 with
        | none =>
            by_cases ha : a = 0
            · simp [fallbackTokensUpdate, failedTokensUpdate, truthyTokens, ha]
            · simp [fallbackTokensUpdate, failedTokensUpdate, truthyTokens, ha]
        | some b =>
            by_cases ha : a = 0 <;> by_cases hb : b = 0 <;>
              simp [fallbackTokensUpdate, failedTokensUpdate, truthyTokens,
                ha, hb]
  · intro prev r h
    cases r with
    | none => cases h
    | some b => simp [failedTokensUpdate, h]

/-- Witness for C9: the retry worker adds a concrete reported count of 50 to
an existing counter of 100. -/
theorem C9_witness :
    failedTokensUpdate (some 100) (some 50) =
      some (100 + (some (50 : Nat)).getD 0) :=
  (C9_tokens_accumulate none none).2 100 (some 50) (by decide)

/-! ## Retry worker eligibility and attempt cap
(`src/db/repositories/images.py`, `workers/decode_failed/main.py`) -/

/-- `DecoderAttempt` (models/image.py lines 54–63): the fields recorded per
decoding attempt. -/
structure DecoderAttempt where
  decoder : String
  attempt_number : Nat
  success : Bool
  codes_found : Nat
deriving DecidableEq, Repr

/-- The slice of an image document that the retry worker reads and writes:
the status and the persisted `processing.fallback_attempts` array. -/
structure RetryImageState where
  status : ImageStatus
  fallback_attempts : List DecoderAttempt
deriving DecidableEq, Repr

/-- `MAX_GEMINI_ATTEMPTS` (decode_failed/main.py line 24). -/
def MAX_GEMINI_ATTEMPTS : Nat := 3

/-- The eligibility filter of `ImageRepository.find_failed_for_retry`
(images.py lines 148–156): status failed, and the size of
`processing.fallback_attempts` (empty when absent, via `$ifNull`) strictly
below `max_attempts`. -/
def findFailedForRetrySelects (max_attempts : Nat)
    (s : RetryImageState) : Bool :=
  s.status = ImageStatus.failed &&
    s.fallback_attempts.length < max_attempts

/-- One retry-worker pass over an image (decode_failed/main.py lines
56–255): the image must be selected by `find_failed_for_retry` with
`MAX_GEMINI_ATTEMPTS`; a completed pass appends exactly one fallback attempt
record and persists one of the terminal statuses (failed, decoded_fallback,
manual_review); the per-image exception path keeps the image failed without
persisting a new attempt record. -/
inductive RetryStep : RetryImageState → RetryImageState → Prop
  | process (s : RetryImageState) (a : DecoderAttempt)
      (newStatus : ImageStatus)
      (helig : findFailedForRetrySelects MAX_GEMINI_ATTEMPTS s = true)
      (hstatus : newStatus = ImageStatus.failed ∨
        newStatus = ImageStatus.decoded_fallback ∨
        newStatus = ImageStatus.manual_review) :
      RetryStep s ⟨newStatus, s.fallback_attempts ++ [a]⟩
  | error (s : RetryImageState)
      (helig : findFailedForRetrySelects MAX_GEMINI_ATTEMPTS s = true) :
      RetryStep s ⟨ImageStatus.failed, s.fallback_attempts⟩

/-- C5: an image is selected for AI retry only while it is failed with fewer
than 3 recorded fallback attempts; the recorded attempt count never exceeds
3 along any sequence of retry passes (so no 4th fallback attempt, counting
the original fallback, is ever recorded); and an image that is failed with 3
recorded attempts is stuck — no sequence of retry passes changes it. -/
theorem C5_retry_cap (s : RetryImageState) :
    (findFailedForRetrySelects MAX_GEMINI_ATTEMPTS s = true →
      s.status = ImageStatus.failed ∧ s.fallback_attempts.length < 3) ∧
    (∀ s', s.fallback_attempts.length ≤ 3 →
      Relation.ReflTransGen RetryStep s s' →
      s'.fallback_attempts.length ≤ 3) ∧
    (s.fallback_attempts.length = 3 → s.status = ImageStatus.failed →
      ∀ s', Relation.ReflTransGen RetryStep s s' → s' = s) := by
  refine ⟨?_, ?_, ?_⟩
  · intro h
    simpa [findFailedForRetrySelects, MAX_GEMINI_ATTEMPTS,
      Bool.and_eq_true, decide_eq_true_eq] using h
  · intro s' hlen h
    induction h with
    | refl => exact hlen
    | tail hprev hstep ih =>
        rename_i b c
        cases hstep with
        | process a newStatus helig hstatus =>
            have hb := helig
            simp only [findFailedForRetrySelects, MAX_GEMINI_ATTEMPTS,
              Bool.and_eq_true, decide_eq_true_eq] at hb
            show (b.fallback_attempts ++ [a]).length ≤ 3
            have hlt := hb.2
            simp only [List.length_append, List.length_cons,
              List.length_nil]
            omega
        | error helig =>
            have hb := helig
            simp only [findFailedForRetrySelects, MAX_GEMINI_ATTEMPTS,
              Bool.and_eq_true, decide_eq_true_eq] at hb
            exact Nat.le_of_lt hb.2
  · intro hlen hstat s' h
    induction h with
    | refl => rfl
    | tail hprev hstep ih =>
        subst ih
        cases hstep with
        | process a newStatus helig hstatus =>
            exfalso
            have hb := helig
            simp only [findFailedForRetrySelects, MAX_GEMINI_ATTEMPTS,
              Bool.and_eq_true, decide_eq_true_eq] at hb
            omega
        | error helig =>
            exfalso
            have hb := helig
            simp only [findFailedForRetrySelects, MAX_GEMINI_ATTEMPTS,
              Bool.and_eq_true, decide_eq_true_eq] at hb
            omega

/-- A failed image with 3 recorded fallback attempts. -/
def cappedImage : RetryImageState :=
  { status := ImageStatus.failed
    fallback_attempts :=
      [⟨"gemini", 1, false, 0⟩, ⟨"gemini", 2, false, 0⟩,
       ⟨"gemini", 3, false, 0⟩] }

/-- A failed image with one recorded fallback attempt: still eligible. -/
def oneAttemptImage : RetryImageState :=
  { status := ImageStatus.failed
    fallback_attempts := [⟨"gemini", 1, false, 0⟩] }

/-- Witness for C5: the eligibility filter is satisfiable (failed image with
one recorded attempt), and the capped image with 3 recorded attempts is
unchanged by any (here: the empty) sequence of retry passes. -/
theorem C5_witness :
    oneAttemptImage.status = ImageStatus.failed ∧
      cappedImage = cappedImage :=
  ⟨((C5_retry_cap oneAttemptImage).1 (by decide)).1,
   (C5_retry_cap cappedImage).2.2 (by decide) rfl cappedImage
     Relation.ReflTransGen.refl⟩

/-! ## Manual review resolution (`src/db/repositories/detections.py`,
`tools/manual_review_ui/app.py`) -/

/-- The update applied by `mark_chosen` to the named document:
`chosen=true, ambiguous=false` (detections.py lines 87–97). -/
def chooseUpdate (d : DetectionDoc) : DetectionDoc :=
  { d with chosen := true, ambiguous := false }

/-- The update applied by `reject_other_detections` to each matching
document: `rejected=true, ambiguous=false` (detections.py lines 134–141). -/
def rejectUpdate (d : DetectionDoc) : DetectionDoc :=
  { d with rejected := true, ambiguous := false }

/-- Mongo `update_one`: apply `f` to the first document matching `p`. -/
def updateFirst (p : DetectionDoc → Bool) (f : DetectionDoc → DetectionDoc) :
    List DetectionDoc → List DetectionDoc
  | [] => []
  | d :: rest => if p d then f d :: rest else d :: updateFirst p f rest

/-- `DetectionRepository.mark_chosen` (detections.py lines 79–98):
`update_one` on `_id`, setting `chosen=true, ambiguous=false`. -/
def mark_chosen (detection_id : Nat) (dets : List DetectionDoc) :
    List DetectionDoc :=
  updateFirst (fun d => d.id = detection_id) chooseUpdate dets

/-- The per-document effect of `reject_other_detections`: reject when the
document belongs to the image and is not the chosen one. -/
def rejectOtherApply (iid : String) (did : Nat) (d : DetectionDoc) :
    DetectionDoc :=
  if d.image_id = iid ∧ d.id ≠ did then rejectUpdate d else d

/-- `DetectionRepository.reject_other_detections` (detections.py lines
120–143): `update_many` over `image_id = iid ∧ _id ≠ chosen_id`. -/
def reject_other_detections (iid : String) (chosen_id : Nat)
    (dets : List DetectionDoc) : List DetectionDoc :=
  dets.map (rejectOtherApply iid chosen_id)

/-- The `choose` branch of `resolve_image`
(manual_review_ui/app.py lines 191–203 and 236): mark the named detection
chosen, reject the other detections of the image, and set the image status
to decoded_manual. -/
def resolve_choose (iid : String) (detection_id : Nat)
    (dets : List DetectionDoc) : List DetectionDoc × ImageStatus :=
  (reject_other_detections iid detection_id (mark_chosen detection_id dets),
   ImageStatus.decoded_manual)

/-- A detection that counts as live for the image: belongs to it and is not
rejected. -/
def activeForImage (iid : String) (d : DetectionDoc) : Bool :=
  decide (d.image_id = iid) && !d.rejected

theorem rejectOtherApply_id (iid : String) (did : Nat) (d : DetectionDoc) :
    (rejectOtherApply iid did d).id = d.id := by
  unfold rejectOtherApply
  split <;> rfl

theorem rejectOtherApply_image_id (iid : String) (did : Nat)
    (d : DetectionDoc) :
    (rejectOtherApply iid did d).image_id = d.image_id := by
  unfold rejectOtherApply
  split <;> rfl

theorem rejectOtherApply_of_ne (iid : String) (did : Nat) (d : DetectionDoc)
    (h : d.id ≠ did) (himg : d.image_id = iid) :
    rejectOtherApply iid did d = rejectUpdate d :=
  if_pos ⟨himg, h⟩

theorem rejectOtherApply_of_id (iid : String) (did : Nat) (d : DetectionDoc)
    (h : d.id = did) : rejectOtherApply iid did d = d :=
  if_neg (fun hc => hc.2 h)

theorem rejectOtherApply_of_other_image (iid : String) (did : Nat)
    (d : DetectionDoc) (h : ¬ d.image_id = iid) :
    rejectOtherApply iid did d = d :=
  if_neg (fun hc => h hc.1)

theorem rejectOtherApply_inactive (iid : String) (did : Nat)
    (d : DetectionDoc) (h : d.id ≠ did) :
    activeForImage iid (rejectOtherApply iid did d) = false := by
  by_cases himg : d.image_id = iid
  · rw [rejectOtherApply_of_ne iid did d h himg]
    simp [activeForImage, rejectUpdate]
  · rw [rejectOtherApply_of_other_image iid did d himg]
    simp [activeForImage, himg]

theorem rejectOthers_tail_facts (iid : String) (did : Nat) :
    ∀ (xs : List DetectionDoc), (∀ y ∈ xs, y.id ≠ did) →
      ((reject_other_detections iid did xs).filter
        (activeForImage iid)).length = 0 ∧
      (∀ d' ∈ reject_other_detections iid did xs,
        d'.id ≠ did ∧
        (d'.image_id = iid → d'.rejected = true ∧ d'.ambiguous = false)) := by
  intro xs
  induction xs with
  | nil =>
      intro _
      exact ⟨rfl, fun d' h => absurd h (List.not_mem_nil d')⟩
  | cons y ys ih =>
      intro h
      have hy : y.id ≠ did := h y (List.mem_cons_self y ys)
      have hys := ih (fun z hz => h z (List.mem_cons_of_mem y hz))
      have hsplit : reject_other_detections iid did (y :: ys) =
          rejectOtherApply iid did y ::
            reject_other_detections iid did ys := rfl
      constructor
      · rw [hsplit, List.filter_cons, rejectOtherApply_inactive iid did y hy]
        simpa using hys.1
      · intro d' hd'
        rw [hsplit] at hd'
        rcases List.mem_cons.mp hd' with rfl | hd'
        · constructor
          · rw [rejectOtherApply_id]
            exact hy
          · intro himg'
            have hyimg : y.image_id = iid := by
              rw [← rejectOtherApply_image_id iid did y]
              exact himg'
            rw [rejectOtherApply_of_ne iid did y hy hyimg]
            exact ⟨rfl, rfl⟩
        · exact hys.2 d' hd'

/-- C6: after a `choose` decision naming detection `did` of image `iid` —
assuming the named detection is one of the stored detections, the stored
`_id`s are unique, and it was not already rejected — the chosen detection
ends chosen, non-ambiguous and non-rejected; every other detection of the
image ends rejected and non-ambiguous; the image status becomes
decoded_manual; and exactly one non-rejected detection of the image
remains. -/
theorem C6_resolve_choose (iid : String) (did : Nat)
    (dets : List DetectionDoc) (d : DetectionDoc)
    (hmem : d ∈ dets) (hid : d.id = did) (himg : d.image_id = iid)
    (hrej : d.rejected = false)
    (hnodup : (dets.map DetectionDoc.id).Nodup) :
    (resolve_choose iid did dets).2 = ImageStatus.decoded_manual ∧
    (∀ d' ∈ (resolve_choose iid did dets).1, d'.id = did →
      d'.chosen = true ∧ d'.ambiguous = false ∧ d'.rejected = false) ∧
    (∀ d' ∈ (resolve_choose iid did dets).1, d'.id ≠ did →
      d'.image_id = iid → d'.rejected = true ∧ d'.ambiguous = false) ∧
    ((resolve_choose iid did dets).1.filter (activeForImage iid)).length
      = 1 := by
  refine ⟨rfl, ?_⟩
  induction dets with
  | nil => cases hmem
  | cons x xs ih =>
      simp only [List.map_cons, List.nodup_cons] at hnodup
      obtain ⟨hxnotin, hnodup'⟩ := hnodup
      by_cases hx : x.id = did
      · have hdx : d = x := by
          rcases List.mem_cons.mp hmem with rfl | hin
          · rfl
          · exfalso
            apply hxnotin
            have hmm : d.id ∈ xs.map DetectionDoc.id :=
              List.mem_map_of_mem DetectionDoc.id hin
            rwa [hid, ← hx] at hmm
        subst hdx
        have htail : ∀ y ∈ xs, y.id ≠ did := by
          intro y hy hc
          apply hxnotin
          have hmm : y.id ∈ xs.map DetectionDoc.id :=
            List.mem_map_of_mem DetectionDoc.id hy
          rwa [hc, ← hx] at hmm
        have hmc : mark_chosen did (d :: xs) = chooseUpdate d :: xs := by
          simp [mark_chosen, updateFirst, hid]
        have hres : (resolve_choose iid did (d :: xs)).1 =
            rejectOtherApply iid did (chooseUpdate d) ::
              reject_other_detections iid did xs := by
          rw [resolve_choose, hmc]
          rfl
        have hheadeq : rejectOtherApply iid did (chooseUpdate d) =
            chooseUpdate d :=
          rejectOtherApply_of_id iid did (chooseUpdate d) hid
        have hfacts := rejectOthers_tail_facts iid did xs htail
        refine ⟨?_, ?_, ?_⟩
        · intro d' hd' hd'id
          rw [hres, hheadeq] at hd'
          rcases List.mem_cons.mp hd' with rfl | hd'
          · exact ⟨rfl, rfl, hrej⟩
          · exact absurd hd'id (hfacts.2 d' hd').1
        · intro d' hd' hne himg'
          rw [hres, hheadeq] at hd'
          rcases List.mem_cons.mp hd' with rfl | hd'
          · exact absurd hid hne
          · exact (hfacts.2 d' hd').2 himg'
        · rw [hres, hheadeq, List.filter_cons]
          have hact : activeForImage iid (chooseUpdate d) = true := by
            simp [activeForImage, chooseUpdate, himg, hrej]
          rw [hact]
          have h0 := hfacts.1
          simp [h0]
      · have hdin : d ∈ xs := by
          rcases List.mem_cons.mp hmem with rfl | hin
          · exact absurd hid hx
          · exact hin
        have htailres := ih hdin hnodup'
        have hmc : mark_chosen did (x :: xs) =
            x :: mark_chosen did xs := by
          simp [mark_chosen, updateFirst, hx]
        have hres : (resolve_choose iid did (x :: xs)).1 =
            rejectOtherApply iid did x ::
              (resolve_choose iid did xs).1 := by
          rw [resolve_choose, hmc]
          rfl
        refine ⟨?_, ?_, ?_⟩
        · intro d' hd' hd'id
          rw [hres] at hd'
          rcases List.mem_cons.mp hd' with rfl | hd'
          · exfalso
            apply hx
            rw [← rejectOtherApply_id iid did x]
            exact hd'id
          · exact htailres.1 d' hd' hd'id
        · intro d' hd' hne himg'
          rw [hres] at hd'
          rcases List.mem_cons.mp hd' with rfl | hd'
          · have hximg : x.image_id = iid := by
              rw [← rejectOtherApply_image_id iid did x]
              exact himg'
            rw [rejectOtherApply_of_ne iid did x hx hximg]
            exact ⟨rfl, rfl⟩
          · exact htailres.2.1 d' hd' hne himg'
        · rw [hres, List.filter_cons,
            rejectOtherApply_inactive iid did x hx]
          simpa using htailres.2.2

/-- The two S3/S4 detections of image `img1`, both ambiguous before
review. -/
def reviewDet1 : DetectionDoc :=
  { id := 1
    image_id := "img1"
    batch_id := "batch1"
    code := asciiCode
      ['4', '0', '0', '6', '3', '8', '1', '3', '3', '3', '9', '3', '1']
    symbology := BarcodeSymbology.ean13
    source := DetectionSource.fallback_gemini
    confidence := some (9/10)
    checksum_valid := true
    length_valid := true
    numeric_only := true
    ambiguous := true
    chosen := false
    rejected := false
    gemini_confidence := some (9/10)
    gemini_symbology_guess := some "EAN-13"
    product_found := false }

/-- The second review detection. -/
def reviewDet2 : DetectionDoc :=
  { reviewDet1 with
    id := 2
    code := asciiCode
      ['5', '9', '0', '1', '2', '3', '4', '1', '2', '3', '4', '5', '7'] }

/-- Witness for C6 at the spec S4 scenario: choosing detection 1 out of the
two ambiguous detections of `img1` leaves exactly one non-rejected
detection. -/
theorem C6_witness :
    ((resolve_choose "img1" 1 [reviewDet1, reviewDet2]).1.filter
      (activeForImage "img1")).length = 1 :=
  (C6_resolve_choose "img1" 1 [reviewDet1, reviewDet2] reviewDet1
    (List.mem_cons_self _ _) rfl rfl rfl (by decide)).2.2.2


/-! ## AI-call retry wrapper (`src/llm/gemini.py`) -/

/-- Outcome of one attempt of the remote `generate_content` call (with its
response parsing folded in): either a parsed result list plus token count,
or a raised transport error. -/
inductive CallOutcome where
  | success (results : List GeminiResult) (tokens_used : Option Nat)
  | transport (msg : String)
deriving DecidableEq, Repr

/-- `GeminiResponse` (gemini.py lines 92–99), without the raw text. -/
structure GeminiResponse where
  results : List GeminiResult
  tokens_used : Option Nat
  error : Option String
deriving DecidableEq, Repr

/-- The body of `extract_barcodes` (gemini.py lines 159–206): the whole
call-and-parse is wrapped in `try/except Exception`, so a raised transport
error is caught and turned into a normal `GeminiResponse` with `error` set —
the body itself never raises. -/
def extractBody (o : CallOutcome) : Except String GeminiResponse :=
  match o with
  | CallOutcome.success results tokens => Except.ok ⟨results, tokens, none⟩
  | CallOutcome.transport msg => Except.ok ⟨[], none, some msg⟩

/-- The tenacity `@retry(stop=stop_after_attempt(3), wait=wait_exponential)`
wrapper (gemini.py lines 141–144): re-invoke the wrapped function when it
raises, up to 3 attempts, then re-raise; the result is paired with the
number of attempts actually made. -/
def tenacityRun (f : Nat → Except String GeminiResponse) :
    Except String GeminiResponse × Nat :=
  match f 1 with
  | Except.ok a => (Except.ok a, 1)
  | Except.error _ =>
    match f 2 with
    | Except.ok a => (Except.ok a, 2)
    | Except.error _ => (f 3, 3)

/-- `GeminiClient.extract_barcodes` under an oracle giving the outcome of
each remote attempt. -/
def extract_barcodes (oracle : Nat → CallOutcome) :
    Except String GeminiResponse × Nat :=
  tenacityRun (fun i => extractBody (oracle i))

/-- Evidence for C7 being violated by the code: whatever the remote call
does, `extract_barcodes` returns normally after exactly one attempt — the
`except Exception` inside the body turns a transport error into a normal
`GeminiResponse` with `error` set, so the tenacity retry never sees an
exception, no retry happens, and no exception reaches the caller. -/
theorem C7_transport_error_not_retried (oracle : Nat → CallOutcome) :
    (∃ r, (extract_barcodes oracle).1 = Except.ok r) ∧
    (extract_barcodes oracle).2 = 1 ∧
    (∀ msg, oracle 1 = CallOutcome.transport msg →
      (extract_barcodes oracle).1 =
        Except.ok ⟨[], none, some msg⟩) := by
  cases h1 : oracle 1 with
  | success results tokens =>
      refine ⟨⟨⟨results, tokens, none⟩, ?_⟩, ?_, ?_⟩
      · simp [extract_barcodes, tenacityRun, extractBody, h1]
      · simp [extract_barcodes, tenacityRun, extractBody, h1]
      · intro msg hmsg
        cases hmsg
  | transport msg =>
      refine ⟨⟨⟨[], none, some msg⟩, ?_⟩, ?_, ?_⟩
      · simp [extract_barcodes, tenacityRun, extractBody, h1]
      · simp [extract_barcodes, tenacityRun, extractBody, h1]
      · intro msg' hmsg
        cases hmsg
        simp [extract_barcodes, tenacityRun, extractBody, h1]

/-- An oracle whose every attempt raises a transport error. -/
def transportOracle : Nat → CallOutcome :=
  fun _ => CallOutcome.transport "connection reset"

/-- Witness for C7 at the always-failing oracle: the transport error of the
first attempt surfaces as a normal (non-raising) response. -/
theorem C7_witness :
    (extract_barcodes transportOracle).1 =
      Except.ok ⟨[], none, some "connection reset"⟩ :=
  (C7_transport_error_not_retried transportOracle).2.2
    "connection reset" rfl

end EANVision
